import Mathlib

/-!
Verification of the ExpenseFrontend client (a browser expense-tracking
dashboard).  The development shallowly embeds the reviewable surface of the
repository — the API client (`src/lib/api.ts`), the authentication context
(`AuthContext` in the unnamed sources), the expense-form validation and
submit handler (`Expenses` page), the dashboard aggregates (`Dashboard`
page) and the file-manager search filter (`Files` page) — and proves the
spec's testable properties about the embedding.

Modelling conventions:
  * JavaScript numbers used for money amounts are modelled as rationals
    (`ℚ`); the aggregate computations are pure `reduce`s over them.
  * `localStorage` is modelled as a `Store` record with the three keys the
    application uses plus an `other` map for every unrelated key.  Values
    are held at their parsed type (`tokenExpiry` as the number whose decimal
    string is stored; `user_data` as the `User` whose JSON is stored),
    abstracting the stringify/parse round trip.
  * Parsed JSON bodies of successful responses are opaque `String` tokens;
    error bodies are an `ErrBody` record with optional `detail`/`message`
    fields (`none` = key absent).
  * JavaScript truthiness of strings (`""` is falsy) is modelled explicitly
    where the code uses `||` on strings.
-/

/-- JavaScript `s.toLowerCase()`: lower-case every character (modelled as a
structural map over the string's character list). -/
def jsToLower (s : String) : String :=
  ⟨s.data.map Char.toLower⟩

/-- `sub.data <:+: s.data` — JavaScript `s.includes(sub)` (contiguous
substring, case-sensitive). -/
def jsIncludes (s sub : String) : Bool :=
  decide (sub.data <:+: s.data)

/-- A stored file as reported by the backend (`S3File` in the Files page). -/
structure S3File where
  key : String
  size : Nat
  last_modified : String
  etag : String
  original_filename : String
deriving DecidableEq, Repr

/-- `Files` page: `files.filter(file =>
file.original_filename.toLowerCase().includes(searchQuery.toLowerCase()))`. -/
def filteredFiles (files : List S3File) (searchQuery : String) : List S3File :=
  files.filter (fun file =>
    jsIncludes (jsToLower file.original_filename) (jsToLower searchQuery))

/-- Spec-side predicate for C10: `q` occurs in `f.original_filename` as a
case-insensitive contiguous substring. -/
def matchesQueryCI (f : S3File) (q : String) : Prop :=
  (jsToLower q).data <:+: (jsToLower f.original_filename).data

instance (f : S3File) (q : String) : Decidable (matchesQueryCI f q) := by
  unfold matchesQueryCI; infer_instance

/-- C10 — Filtering with the empty query is the identity; for every query the
filtered list is a subsequence of the input (original order preserved) whose
members are exactly the files whose `original_filename` contains the query as
a case-insensitive substring. -/
theorem c10_filteredFiles_characterization (files : List S3File) (q : String) :
    filteredFiles files "" = files ∧
    (filteredFiles files q).Sublist files ∧
    (∀ f : S3File, f ∈ filteredFiles files q ↔ f ∈ files ∧ matchesQueryCI f q) := by
  refine ⟨?_, ?_, ?_⟩
  · unfold filteredFiles
    apply List.filter_eq_self.mpr
    intro f _
    unfold jsIncludes
    have h : jsToLower "" = "" := rfl
    simp [h, jsIncludes]
  · exact List.filter_sublist _
  · intro f
    unfold filteredFiles matchesQueryCI jsIncludes
    rw [List.mem_filter]
    simp

/-!
## API client (`src/lib/api.ts`)
-/

/-- Parsed JSON body of a non-2xx response: the optional `detail` and
`message` fields the client inspects (`none` = key absent). -/
structure ErrBody where
  detail : Option String
  message : Option String
deriving DecidableEq, Repr

/-- JavaScript `a || b` where `a` is an (optionally absent) string: the empty
string is falsy, so it falls through to `b`. -/
def jsOrStr (a : Option String) (b : String) : String :=
  match a with
  | some s => if s = "" then b else s
  | none => b

/-- Message of the `Error` thrown by `request` on a non-ok response:
`await response.json().catch(() => ({ message: "Request failed" }))` followed
by `error.detail || error.message || "Request failed"`.  `body = none` means
the error body was not parseable JSON. -/
def errMessage (body : Option ErrBody) : String :=
  let error := body.getD { detail := none, message := some "Request failed" }
  jsOrStr error.detail (jsOrStr error.message "Request failed")

/-- Outcome of the underlying `fetch`: either `response.ok` with a parsed
JSON body (held opaque), or a non-success status with an optional parsed
error body. -/
inductive HttpResp where
  | success (body : String)
  | failure (status : Nat) (errBody : Option ErrBody)
deriving DecidableEq, Repr

/-- `ApiClient.request` after the fetch resolves: return the parsed body when
`response.ok`, otherwise throw an `Error` carrying `errMessage`. -/
def request (resp : HttpResp) : Except String String :=
  match resp with
  | .success body => .ok body
  | .failure _ errBody => .error (errMessage errBody)

/-- C3's error-message selection taken literally from the spec's words:
the server's `detail` field if present, else the `message` field if present,
else the fallback string (also when the body is not parseable JSON). -/
def specErrMessageC3 (body : Option ErrBody) : String :=
  match body with
  | none => "Request failed"
  | some eb =>
    match eb.detail with
    | some d => d
    | none => eb.message.getD "Request failed"

/-- C3 amended error-message selection: the `detail` field if present and
non-empty, else the `message` field if present and non-empty, else the
fallback string (an empty-string field is skipped like an absent one). -/
def specErrMessageC3Amended (body : Option ErrBody) : String :=
  match body with
  | none => "Request failed"
  | some eb =>
    match eb.detail with
    | some d =>
      if d = "" then
        match eb.message with
        | some m => if m = "" then "Request failed" else m
        | none => "Request failed"
      else d
    | none =>
      match eb.message with
      | some m => if m = "" then "Request failed" else m
      | none => "Request failed"

/-- C3 — counterexample to the claim as stated: a failing response whose
parsed body is `{detail: "", message: "boom"}` makes `request` throw `"boom"`
(the empty `detail` is falsy under `||`), while the claim's selection rule
("detail if present") demands the empty string. -/
theorem c3_counterexample :
    request (.failure 500 (some { detail := some "", message := some "boom" }))
      ≠ .error (specErrMessageC3 (some { detail := some "", message := some "boom" })) := by
  simp [request, errMessage, jsOrStr, specErrMessageC3]

/-- C3 (amended) — `request` returns the parsed JSON body on a success
status, and on a failure status throws the server's non-empty `detail` field
if present, else its non-empty `message` field, else `"Request failed"`
(also when the error body is not parseable JSON, i.e. `errBody = none`). -/
theorem c3_request_error_selection (resp : HttpResp) :
    (∀ body, resp = .success body → request resp = .ok body) ∧
    (∀ status errBody, resp = .failure status errBody →
      request resp = .error (specErrMessageC3Amended errBody)) := by
  constructor
  · rintro body rfl; rfl
  · rintro status errBody rfl
    show Except.error (errMessage errBody) = _
    congr 1
    match errBody with
    | none => rfl
    | some eb =>
      cases h1 : eb.detail <;> cases h2 : eb.message <;>
        simp [errMessage, jsOrStr, specErrMessageC3Amended, h1, h2]

/-- Witness for C3: at a concrete failing response with body
`{message: "no token"}`, the theorem yields the server's message. -/
theorem c3_request_error_selection_witness :
    request (.failure 401 (some { detail := none, message := some "no token" }))
      = .error "no token" := by
  have h := (c3_request_error_selection
    (.failure 401 (some { detail := none, message := some "no token" }))).2
    401 (some { detail := none, message := some "no token" }) rfl
  rw [h]
  rfl

/-!
## Session store (`AuthContext` in the unnamed sources)

Local storage is modelled as a `Store` with the three keys the application
writes — `auth_token` (a string), `tokenExpiry` (held as the number whose
decimal string is stored) and `user_data` (held as the `User` whose JSON is
stored) — plus an `other` map for every unrelated key.
-/

/-- Identity record `{id, email, name, role}` (interface `User` in api.ts). -/
structure User where
  id : String
  email : String
  name : String
  role : String
deriving DecidableEq, Repr

/-- The browser's local storage as the application sees it. -/
structure Store where
  auth_token : Option String
  tokenExpiry : Option Nat
  user_data : Option User
  other : String → Option String

/-- `POST /auth/login` / `POST /auth/signup` response payload
(interface `AuthResponse` in api.ts). -/
structure AuthResponse where
  token : String
  refresh_token : String
  expires_in : Nat
  user : User
deriving DecidableEq, Repr

/-- Outcome of `api.getMe()` as `checkAuth` observes it: either the envelope's
`data` (a `User`), or the non-ok HTTP status together with the parsed error
body from which `request` builds the thrown `Error` (which carries only a
message — a JavaScript `Error` has no `status` field). -/
inductive MeOutcome where
  | ok (u : User)
  | err (status : Nat) (errBody : Option ErrBody)
deriving DecidableEq, Repr

/-- `checkAuth` (runs on mount, with component state `user = null`):
  * no stored token → nothing happens;
  * `getMe` succeeds → `setUser(data)` and refresh `user_data`;
  * `getMe` throws → the caught `Error` has `error.status === undefined`, so
    the 404 test reduces to `error.message?.includes("404")`; when it holds,
    restore the cached `user_data` if present; otherwise remove all three
    keys.
Returns the updated store and the component's `user` state. -/
def checkAuth (st : Store) (r : MeOutcome) : Store × Option User :=
  match st.auth_token with
  | none => (st, none)
  | some _ =>
    match r with
    | .ok u => ({ st with user_data := some u }, some u)
    | .err _ errBody =>
      let msg := errMessage errBody
      if jsIncludes msg "404" then
        match st.user_data with
        | some cachedUser => (st, some cachedUser)
        | none => (st, none)
      else
        ({ st with auth_token := none, tokenExpiry := none, user_data := none }, none)

/-- `login` (and structurally `signup`): on a successful backend response
persist `auth_token := token`, `tokenExpiry := now + expires_in * 1000`,
`user_data := user`, set the user and navigate to `/dashboard`; on failure
show a toast and rethrow — no state or storage change.  `user0` is the
component's user state before the call; the navigation target is the third
component. -/
def login (st : Store) (user0 : Option User) (now : Nat)
    (r : Except String AuthResponse) : Store × Option User × Option String :=
  match r with
  | .ok a =>
    ({ st with auth_token := some a.token,
               tokenExpiry := some (now + a.expires_in * 1000),
               user_data := some a.user },
     some a.user, some "/dashboard")
  | .error _ => (st, user0, none)

/-- `logout`: remove the three keys, `setUser(null)`, navigate to `/login`. -/
def logout (st : Store) : Store × Option User × Option String :=
  ({ st with auth_token := none, tokenExpiry := none, user_data := none },
   none, some "/login")

/-- Concrete fixtures used by counterexamples and witnesses. -/
def uAlice : User :=
  { id := "u1", email := "alice@example.com", name := "Alice", role := "user" }

def stAuthed : Store :=
  { auth_token := some "tok", tokenExpiry := some 1700000000000,
    user_data := some uAlice, other := fun _ => none }

/-- C2 — counterexample to the claim as stated: with a stored token and a
cached user snapshot, a current-user lookup failing with HTTP status 404 and
body `{detail: "Not Found"}` does NOT restore the cached user and clears all
three keys — `request` collapses the response to `Error("Not Found")`, the
`Error` has no `status` field, and the message does not contain `"404"`. -/
theorem c2_counterexample :
    (checkAuth stAuthed (.err 404 (some { detail := some "Not Found", message := none }))).1.auth_token
        = none ∧
    (checkAuth stAuthed (.err 404 (some { detail := some "Not Found", message := none }))).1.user_data
        = none ∧
    (checkAuth stAuthed (.err 404 (some { detail := some "Not Found", message := none }))).2
        = none := by
  refine ⟨rfl, rfl, rfl⟩

/-- C2 (amended) — on initialization with a stored token and a cached user
snapshot, if the current-user lookup fails and the thrown error's message
contains the substring `"404"` (the client's only observable trace of the
status, e.g. a body `{detail: "404 Not Found"}`), the cached snapshot is
restored as the current user and the store — all three persisted keys
included — is left untouched. -/
theorem c2_checkAuth_404_message_restores_cache
    (st : Store) (status : Nat) (errBody : Option ErrBody) (u : User)
    (htok : st.auth_token.isSome = true)
    (hcache : st.user_data = some u)
    (hmsg : jsIncludes (errMessage errBody) "404" = true) :
    checkAuth st (.err status errBody) = (st, some u) := by
  obtain ⟨t, h⟩ := Option.isSome_iff_exists.mp htok
  simp [checkAuth, h, hmsg, hcache]

/-- Witness for C2: a concrete authenticated store and a 404 whose error
detail is `"404 Not Found"` keep the session and restore Alice. -/
theorem c2_checkAuth_404_message_restores_cache_witness :
    checkAuth stAuthed (.err 404 (some { detail := some "404 Not Found", message := none }))
      = (stAuthed, some uAlice) :=
  c2_checkAuth_404_message_restores_cache stAuthed 404
    (some { detail := some "404 Not Found", message := none }) uAlice
    rfl rfl (by decide)

/-- C6 — counterexample to the claim as stated: a lookup failure with HTTP
status 500 (not a 404) whose error detail happens to contain `"404"`
(`{detail: "upstream 404"}`) does NOT clear the session: all three keys are
kept and the cached user is restored. -/
theorem c6_counterexample :
    (checkAuth stAuthed (.err 500 (some { detail := some "upstream 404", message := none }))).1.auth_token
        = some "tok" ∧
    (checkAuth stAuthed (.err 500 (some { detail := some "upstream 404", message := none }))).2
        = some uAlice := by
  refine ⟨rfl, rfl⟩

/-- C6 (amended) — on initialization with a stored token, any failure of the
current-user lookup whose thrown error message does not contain `"404"`
(which includes every non-404 failure with an ordinary error body) clears the
session: all three keys are removed together, every other stored key is kept,
and the store returns to anonymous. -/
theorem c6_checkAuth_other_failure_clears
    (st : Store) (status : Nat) (errBody : Option ErrBody)
    (htok : st.auth_token.isSome = true)
    (hmsg : jsIncludes (errMessage errBody) "404" = false) :
    (checkAuth st (.err status errBody)).1.auth_token = none ∧
    (checkAuth st (.err status errBody)).1.tokenExpiry = none ∧
    (checkAuth st (.err status errBody)).1.user_data = none ∧
    (checkAuth st (.err status errBody)).1.other = st.other ∧
    (checkAuth st (.err status errBody)).2 = none := by
  obtain ⟨t, h⟩ := Option.isSome_iff_exists.mp htok
  simp [checkAuth, h, hmsg]

/-- Witness for C6: a concrete 401 with detail `"Invalid token"` clears the
three keys of the authenticated store and leaves the user anonymous. -/
theorem c6_checkAuth_other_failure_clears_witness :
    (checkAuth stAuthed (.err 401 (some { detail := some "Invalid token", message := none }))).1.auth_token
        = none ∧
    (checkAuth stAuthed (.err 401 (some { detail := some "Invalid token", message := none }))).1.tokenExpiry
        = none ∧
    (checkAuth stAuthed (.err 401 (some { detail := some "Invalid token", message := none }))).1.user_data
        = none ∧
    (checkAuth stAuthed (.err 401 (some { detail := some "Invalid token", message := none }))).1.other
        = stAuthed.other ∧
    (checkAuth stAuthed (.err 401 (some { detail := some "Invalid token", message := none }))).2
        = none :=
  c6_checkAuth_other_failure_clears stAuthed 401
    (some { detail := some "Invalid token", message := none }) rfl (by decide)

/-- C4 — from an anonymous store, a successful login sets the current user to
the response's user and persists exactly the three keys with the response's
values (`auth_token` = token, `tokenExpiry` = now + expires_in·1000,
`user_data` = user; every other key untouched), navigating to the main
screen; a failed login changes nothing and the store stays anonymous. -/
theorem c4_login_persists_exactly_three_keys
    (st : Store) (now : Nat) (r : Except String AuthResponse) :
    (∀ a, r = .ok a →
      (login st none now r).1.auth_token = some a.token ∧
      (login st none now r).1.tokenExpiry = some (now + a.expires_in * 1000) ∧
      (login st none now r).1.user_data = some a.user ∧
      (login st none now r).1.other = st.other ∧
      (login st none now r).2.1 = some a.user ∧
      (login st none now r).2.2 = some "/dashboard") ∧
    (∀ e, r = .error e →
      (login st none now r).1 = st ∧
      (login st none now r).2.1 = none ∧
      (login st none now r).2.2 = none) := by
  constructor
  · rintro a rfl
    exact ⟨rfl, rfl, rfl, rfl, rfl, rfl⟩
  · rintro e rfl
    exact ⟨rfl, rfl, rfl⟩

/-- Witness for C4: a concrete successful response from the anonymous store
persists the three keys and authenticates Alice. -/
theorem c4_login_persists_exactly_three_keys_witness :
    (login { auth_token := none, tokenExpiry := none, user_data := none,
             other := fun _ => none } none 1000
        (.ok { token := "t1", refresh_token := "r1", expires_in := 3600, user := uAlice })).1.auth_token
      = some "t1" ∧
    (login { auth_token := none, tokenExpiry := none, user_data := none,
             other := fun _ => none } none 1000
        (.ok { token := "t1", refresh_token := "r1", expires_in := 3600, user := uAlice })).1.tokenExpiry
      = some 3601000 ∧
    (login { auth_token := none, tokenExpiry := none, user_data := none,
             other := fun _ => none } none 1000
        (.ok { token := "t1", refresh_token := "r1", expires_in := 3600, user := uAlice })).2.1
      = some uAlice := by
  have h := (c4_login_persists_exactly_three_keys
    { auth_token := none, tokenExpiry := none, user_data := none, other := fun _ => none }
    1000
    (.ok { token := "t1", refresh_token := "r1", expires_in := 3600, user := uAlice })).1
    { token := "t1", refresh_token := "r1", expires_in := 3600, user := uAlice } rfl
  exact ⟨h.1, h.2.1, h.2.2.2.2.1⟩

/-- C5 — from every prior store and user state, `logout` removes all three
keys, modifies no other stored key, sets the user to `null` (anonymous) and
navigates to the entry screen `/login`. -/
theorem c5_logout_clears_session (st : Store) :
    (logout st).1.auth_token = none ∧
    (logout st).1.tokenExpiry = none ∧
    (logout st).1.user_data = none ∧
    (logout st).1.other = st.other ∧
    (logout st).2.1 = none ∧
    (logout st).2.2 = some "/login" :=
  ⟨rfl, rfl, rfl, rfl, rfl, rfl⟩

/-!
## Request headers (C7) and operation shapes (C8)
-/

/-- `getAuthHeader`: `token ? { Authorization: "Bearer " + token } : {}`,
with the token read from `localStorage.getItem("auth_token")` at call time. -/
def getAuthHeader (st : Store) : List (String × String) :=
  match st.auth_token with
  | some token => [("Authorization", "Bearer " ++ token)]
  | none => []

/-- Header-object lookup where a later entry for the same key overrides an
earlier one (JavaScript object-spread semantics). -/
def headerGet (hs : List (String × String)) (k : String) : Option String :=
  hs.foldl (fun acc kv => if kv.1 = k then some kv.2 else acc) none

/-- Headers `request` sends:
`{ "Content-Type": "application/json", ...getAuthHeader(), ...options.headers }`. -/
def requestHeaders (st : Store) (optionsHeaders : List (String × String)) :
    List (String × String) :=
  ("Content-Type", "application/json") :: (getAuthHeader st ++ optionsHeaders)

/-- Headers `uploadFile` sends: the token is read from storage at call time
and `Authorization` is always present — `"Bearer " + token`, or the empty
string when no token is stored. -/
def uploadFileHeaders (st : Store) : List (String × String) :=
  [("Authorization", match st.auth_token with
    | some token => "Bearer " ++ token
    | none => "")]

theorem headerGet_append_no_key (k : String) (extra : List (String × String))
    (hextra : ∀ p ∈ extra, p.1 ≠ k) (acc : Option String) :
    extra.foldl (fun acc kv => if kv.1 = k then some kv.2 else acc) acc = acc := by
  induction extra generalizing acc with
  | nil => rfl
  | cons p tl ih =>
    have hp : p.1 ≠ k := hextra p (List.mem_cons_self p tl)
    have htl : ∀ q ∈ tl, q.1 ≠ k := fun q hq => hextra q (List.mem_cons_of_mem p hq)
    simp only [List.foldl_cons, if_neg hp]
    exact ih htl acc

/-- C7 — both `request` and `uploadFile` read the token from the store at
call time; with a stored token every call carries
`Authorization: Bearer <token>`, and with no stored token the JSON requests
carry no `Authorization` header at all (callers pass no such header). -/
theorem c7_bearer_header_attached
    (st : Store) (optionsHeaders : List (String × String))
    (hextra : ∀ p ∈ optionsHeaders, p.1 ≠ "Authorization") :
    (∀ token, st.auth_token = some token →
      headerGet (requestHeaders st optionsHeaders) "Authorization"
          = some ("Bearer " ++ token) ∧
      headerGet (uploadFileHeaders st) "Authorization"
          = some ("Bearer " ++ token)) ∧
    (st.auth_token = none →
      headerGet (requestHeaders st optionsHeaders) "Authorization" = none) := by
  constructor
  · intro token htok
    constructor
    · unfold headerGet requestHeaders getAuthHeader
      rw [htok]
      simp only [List.foldl_cons, List.foldl_append]
      rw [headerGet_append_no_key "Authorization" optionsHeaders hextra]
      rfl
    · unfold headerGet uploadFileHeaders
      rw [htok]
      rfl
  · intro htok
    unfold headerGet requestHeaders getAuthHeader
    rw [htok]
    simp only [List.nil_append]
    have h := headerGet_append_no_key "Authorization" optionsHeaders hextra none
    simpa using h

/-- Witness for C7: with token `"t"` stored and no caller headers, both call
paths carry `Authorization: Bearer t`. -/
theorem c7_bearer_header_attached_witness :
    headerGet (requestHeaders stAuthed []) "Authorization" = some "Bearer tok" ∧
    headerGet (uploadFileHeaders stAuthed) "Authorization" = some "Bearer tok" := by
  have h := (c7_bearer_header_attached stAuthed [] (by intro p hp; cases hp)).1
    "tok" rfl
  exact ⟨h.1, h.2⟩

/-- The twelve operations `ApiClient` exposes. -/
inductive ApiOp where
  | signup | login | getMe | getProfile | updateProfile
  | getExpenses | getExpense | createExpense | updateExpense | deleteExpense
  | uploadFile | listFiles
deriving DecidableEq, Repr

/-- How an operation's request body is built. -/
inductive BodyKind where
  | jsonStringified    -- `body: JSON.stringify(...)`
  | noBody             -- GET / DELETE with no body
  | multipartWithFile  -- `FormData` with the file appended under key "file"
deriving DecidableEq, Repr

/-- Shape of each operation as implemented in `src/lib/api.ts`: whether it is
routed through `request` (and therefore sends the
`Content-Type: application/json` header) and how its body is built. -/
def opShape : ApiOp → Bool × Option String × BodyKind
  | .signup => (true, some "application/json", .jsonStringified)
  | .login => (true, some "application/json", .jsonStringified)
  | .getMe => (true, some "application/json", .noBody)
  | .getProfile => (true, some "application/json", .noBody)
  | .updateProfile => (true, some "application/json", .jsonStringified)
  | .getExpenses => (true, some "application/json", .noBody)
  | .getExpense => (true, some "application/json", .noBody)
  | .createExpense => (true, some "application/json", .jsonStringified)
  | .updateExpense => (true, some "application/json", .jsonStringified)
  | .deleteExpense => (true, some "application/json", .noBody)
  | .uploadFile => (false, none, .multipartWithFile)
  | .listFiles => (true, some "application/json", .noBody)

/-- C8 — every operation other than `uploadFile` is routed through `request`,
carries the `Content-Type: application/json` header and sends its body (when
it has one) as stringified JSON, never multipart; `uploadFile` alone bypasses
`request`, sets no JSON content type and sends a multipart form containing
the file. -/
theorem c8_uploadFile_only_multipart (op : ApiOp) :
    (op ≠ .uploadFile →
      (opShape op).1 = true ∧
      (opShape op).2.1 = some "application/json" ∧
      (opShape op).2.2 ≠ .multipartWithFile) ∧
    (op = .uploadFile →
      (opShape op).1 = false ∧
      (opShape op).2.1 = none ∧
      (opShape op).2.2 = .multipartWithFile) := by
  cases op <;> simp [opShape]

/-- Witness for C8: `createExpense` goes through `request` with the JSON
content type, and `uploadFile` does not. -/
theorem c8_uploadFile_only_multipart_witness :
    (opShape .createExpense).1 = true ∧
    (opShape .uploadFile).2.2 = BodyKind.multipartWithFile := by
  have h1 := (c8_uploadFile_only_multipart .createExpense).1 (by decide)
  have h2 := (c8_uploadFile_only_multipart .uploadFile).2 rfl
  exact ⟨h1.1, h2.2.2⟩

/-!
## Expense form (`Expenses` page): zod schema and submit handler (C1)
-/

/-- The form state the submit handler validates (`formData` of type
`ExpenseCreate`; in the form every text field is a string, `tags` a list and
`amount` a number, modelled as `ℚ`). -/
structure ExpenseForm where
  user_id : String
  expense_date : String
  amount : ℚ
  category : String
  merchant : String
  note : String
  tags : List String
deriving DecidableEq, Repr

/-- One check of `expenseSchema` (a zod refinement on one field): the field
it belongs to, the issue message it emits, and when it fails. -/
structure ZCheck where
  field : String
  message : String
  fails : ExpenseForm → Bool

/-- The checks of `expenseSchema`, in zod's evaluation order (object keys in
declaration order, each field's refinements in chained order):
`expense_date: min(1)`, `amount: positive().max(999999)`,
`category: min(1).max(100)`, `merchant: max(200)`, `note: max(1000)`
(`tags: array(string)` has no refinement that a typed form can fail). -/
def expenseChecks : List ZCheck :=
  [ { field := "expense_date", message := "Date is required",
      fails := fun f => decide (f.expense_date.length < 1) },
    { field := "amount", message := "Amount must be positive",
      fails := fun f => decide (f.amount ≤ 0) },
    { field := "amount", message := "Amount too large",
      fails := fun f => decide (999999 < f.amount) },
    { field := "category", message := "Category is required",
      fails := fun f => decide (f.category.length < 1) },
    { field := "category", message := "String must contain at most 100 character(s)",
      fails := fun f => decide (100 < f.category.length) },
    { field := "merchant", message := "String must contain at most 200 character(s)",
      fails := fun f => decide (200 < f.merchant.length) },
    { field := "note", message := "String must contain at most 1000 character(s)",
      fails := fun f => decide (1000 < f.note.length) } ]

/-- `expenseSchema.safeParse(formData).error.issues`: the failing checks, in
schema order. -/
def expenseSchemaIssues (f : ExpenseForm) : List ZCheck :=
  expenseChecks.filter (fun c => c.fails f)

/-- A network call the submit handler can issue. -/
inductive NetCall where
  | createExpense
  | updateExpense (id : String)
deriving DecidableEq, Repr

/-- Result of `handleSubmit`: the API calls issued and the validation-error
toast description (`result.error.issues[0].message`), if any. -/
structure SubmitResult where
  calls : List NetCall
  validationToast : Option String
deriving DecidableEq, Repr

/-- `handleSubmit`: validate with `expenseSchema.safeParse`; on failure show
the first issue's message and return without any network call; on success
issue exactly one call — `updateExpense(editingExpense.id, ...)` when editing,
else `createExpense(...)`. -/
def handleSubmit (f : ExpenseForm) (editingExpense : Option String) : SubmitResult :=
  match expenseSchemaIssues f with
  | issue :: _ => { calls := [], validationToast := some issue.message }
  | [] =>
    match editingExpense with
    | some id => { calls := [NetCall.updateExpense id], validationToast := none }
    | none => { calls := [NetCall.createExpense], validationToast := none }

/-- C1 — whenever the form fails client validation (in particular when the
amount is ≤ 0, the amount exceeds 999999, or the category is empty), the
submit handler issues no network call — neither `createExpense` nor
`updateExpense` — and the error it shows is the message of a schema check
that actually fails on this form (so the message names an offending field). -/
theorem c1_invalid_form_no_network_call
    (f : ExpenseForm) (editingExpense : Option String)
    (hbad : f.amount ≤ 0 ∨ 999999 < f.amount ∨ f.category = "") :
    (handleSubmit f editingExpense).calls = [] ∧
    ∃ c ∈ expenseChecks, c.fails f = true ∧
      (handleSubmit f editingExpense).validationToast = some c.message := by
  have hne : expenseSchemaIssues f ≠ [] := by
    have hmem : ∃ c ∈ expenseChecks, c.fails f = true := by
      rcases hbad with h | h | h
      · exact ⟨expenseChecks.get ⟨1, by decide⟩,
          List.get_mem expenseChecks 1 (by decide), by
          show decide (f.amount ≤ 0) = true; exact decide_eq_true h⟩
      · exact ⟨expenseChecks.get ⟨2, by decide⟩,
          List.get_mem expenseChecks 2 (by decide), by
          show decide (999999 < f.amount) = true; exact decide_eq_true h⟩
      · exact ⟨expenseChecks.get ⟨3, by decide⟩,
          List.get_mem expenseChecks 3 (by decide), by
          show decide (f.category.length < 1) = true
          rw [h]; rfl⟩
    obtain ⟨c, hc, hfail⟩ := hmem
    intro hnil
    have : c ∈ expenseSchemaIssues f := List.mem_filter.mpr ⟨hc, hfail⟩
    rw [hnil] at this
    cases this
  match hiss : expenseSchemaIssues f with
  | [] => exact absurd hiss hne
  | issue :: rest =>
    have hmem0 : issue ∈ expenseSchemaIssues f := by
      rw [hiss]; exact List.mem_cons_self issue rest
    have hmem1 := List.mem_filter.mp hmem0
    refine ⟨?_, issue, hmem1.1, hmem1.2, ?_⟩
    · unfold handleSubmit
      rw [hiss]
    · unfold handleSubmit
      rw [hiss]

/-- Witness for C1: a concrete form with amount −5 is rejected with no
network call. -/
theorem c1_invalid_form_no_network_call_witness :
    (handleSubmit
      { user_id := "u1", expense_date := "2026-10-11", amount := -5,
        category := "Food", merchant := "", note := "", tags := [] }
      none).calls = [] :=
  (c1_invalid_form_no_network_call
    { user_id := "u1", expense_date := "2026-10-11", amount := -5,
      category := "Food", merchant := "", note := "", tags := [] }
    none (Or.inl (by norm_num))).1

/-!
## Dashboard aggregates (`Dashboard` page, C9)
-/

/-- An expense as the dashboard consumes it (the fields its aggregates
touch; amounts as `ℚ`). -/
structure Expense where
  id : String
  amount : ℚ
  category : String
  expense_date : String
  created_at : String
deriving DecidableEq, Repr

/-- `expenses.reduce((sum, exp) => sum + exp.amount, 0)`. -/
def totalExpenses (expenses : List Expense) : ℚ :=
  expenses.foldl (fun sum exp => sum + exp.amount) 0

/-- `expenses.length > 0 ? totalExpenses / expenses.length : 0`. -/
def avgExpense (expenses : List Expense) : ℚ :=
  if 0 < expenses.length then totalExpenses expenses / expenses.length else 0

/-- `expenses.reduce((acc, exp) => { acc[exp.category] = (acc[exp.category]
|| 0) + exp.amount; return acc; }, {})` — the record is modelled as a map
`String → Option ℚ` (`none` = key absent; `(x || 0)` and `x.getD 0` agree
because an absent key and a stored `0` are both treated as `0`). -/
def categoryTotals (expenses : List Expense) : String → Option ℚ :=
  expenses.foldl
    (fun acc exp => fun c =>
      if c = exp.category then some ((acc exp.category).getD 0 + exp.amount)
      else acc c)
    (fun _ => none)

theorem totalExpenses_foldl_eq (expenses : List Expense) (a : ℚ) :
    expenses.foldl (fun sum exp => sum + exp.amount) a
      = a + (expenses.map (fun e => e.amount)).sum := by
  induction expenses generalizing a with
  | nil => simp
  | cons e tl ih =>
    simp only [List.foldl_cons, List.map_cons, List.sum_cons]
    rw [ih]
    ring

theorem categoryTotals_foldl_spec (expenses : List Expense)
    (acc : String → Option ℚ) (c : String) :
    (expenses.foldl
      (fun acc exp => fun c =>
        if c = exp.category then some ((acc exp.category).getD 0 + exp.amount)
        else acc c)
      acc) c
      = if (expenses.filter (fun e => e.category = c)) = [] then acc c
        else some ((acc c).getD 0
          + ((expenses.filter (fun e => e.category = c)).map (fun e => e.amount)).sum) := by
  induction expenses generalizing acc with
  | nil => simp
  | cons e tl ih =>
    simp only [List.foldl_cons]
    by_cases hc : e.category = c
    · subst hc
      rw [ih]
      have hfil : (e :: tl).filter (fun x => x.category = e.category)
          = e :: tl.filter (fun x => x.category = e.category) := by
        simp [List.filter_cons]
      rw [hfil]
      by_cases htl : tl.filter (fun x => x.category = e.category) = []
      · simp [htl]
      · simp [htl, add_assoc]
    · have hc1 : c ≠ e.category := fun h => hc h.symm
      rw [ih]
      have hfil : (e :: tl).filter (fun x => x.category = c)
          = tl.filter (fun x => x.category = c) := by
        simp [List.filter_cons, hc]
      rw [hfil]
      simp [if_neg hc1]

/-- C9 — for every fetched expense list, `totalExpenses` is the sum of the
amounts; `categoryTotals` maps each category occurring in the list to the sum
of the amounts of that category's expenses (and no other category to
anything); and `avgExpense` is the total divided by the list length when the
list is non-empty and `0` on the empty list, with no division by zero. -/
theorem c9_dashboard_aggregates (expenses : List Expense) :
    totalExpenses expenses = (expenses.map (fun e => e.amount)).sum ∧
    (∀ c : String, expenses.filter (fun e => e.category = c) ≠ [] →
      categoryTotals expenses c
        = some (((expenses.filter (fun e => e.category = c)).map (fun e => e.amount)).sum)) ∧
    (∀ c : String, expenses.filter (fun e => e.category = c) = [] →
      categoryTotals expenses c = none) ∧
    (expenses ≠ [] → avgExpense expenses = totalExpenses expenses / expenses.length) ∧
    avgExpense [] = 0 := by
  refine ⟨?_, ?_, ?_, ?_, rfl⟩
  · have h := totalExpenses_foldl_eq expenses 0
    unfold totalExpenses
    rw [h, zero_add]
  · intro c hne
    unfold categoryTotals
    rw [categoryTotals_foldl_spec expenses (fun _ => none) c]
    simp [hne]
  · intro c hnil
    unfold categoryTotals
    rw [categoryTotals_foldl_spec expenses (fun _ => none) c]
    simp [hnil]
  · intro hne
    unfold avgExpense
    rw [if_pos (List.length_pos.mpr hne)]

/-- Witness for C9 at a concrete two-expense list: the Food total is 8 and
the average is 4. -/
theorem c9_dashboard_aggregates_witness :
    categoryTotals
      [ { id := "e1", amount := 3, category := "Food",
          expense_date := "2026-10-01", created_at := "2026-10-01" },
        { id := "e2", amount := 5, category := "Food",
          expense_date := "2026-10-02", created_at := "2026-10-02" } ] "Food"
      = some 8 ∧
    avgExpense
      [ { id := "e1", amount := 3, category := "Food",
          expense_date := "2026-10-01", created_at := "2026-10-01" },
        { id := "e2", amount := 5, category := "Food",
          expense_date := "2026-10-02", created_at := "2026-10-02" } ]
      = 4 := by
  have h := c9_dashboard_aggregates
    [ { id := "e1", amount := 3, category := "Food",
        expense_date := "2026-10-01", created_at := "2026-10-01" },
      { id := "e2", amount := 5, category := "Food",
        expense_date := "2026-10-02", created_at := "2026-10-02" } ]
  constructor
  · have h1 := h.2.1 "Food" (by decide)
    rw [h1]
    norm_num
  · have h2 := h.2.2.2.1 (by decide)
    rw [h2]
    show totalExpenses _ / ((2 : Nat) : ℚ) = 4
    have h0 := h.1
    rw [h0]
    norm_num
